import Mathlib

/-!
Shallow embedding of the request-handling and resilience layer of the
`ai-memory-system` service (`src/ai_memory_system/main.py`).

The service is a thin HTTP router over an external vector store (Qdrant).
All remote behaviour is modelled by explicit oracles: each handler receives
the outcomes that the backend would produce for the calls it may make
(first attempt, collection creation, retry), and the embedding records the
list of backend calls actually issued, the handler outcome, and the state
of the business counters.  Floats that the router never computes with
(vector entries, scores, thresholds) are modelled by rationals; only their
length and pass-through identity matter to the router.
-/

namespace AIMemory

/-- Configured vector dimension (`VECTOR_SIZE`, default 384). -/
def VECTOR_SIZE : Nat := 384

/-- Configured collection name (`COLLECTION_NAME`, default "ai_memory"). -/
def COLLECTION_NAME : String := "ai_memory"

/-- Qdrant URL (`QDRANT_URL`, default). -/
def QDRANT_URL : String := "http://localhost:6333"

/-- Payload: a mapping of string keys to JSON values.  The router never
inspects payload values, it only forwards them, so values are modelled as
opaque strings. -/
abbrev Payload := List (String × String)

/-- A point identifier: `Union[int, str, UUID]` in the source. -/
inductive PointId : Type
  | pint (n : Nat)
  | pstr (s : String)
  | puuid (s : String)
deriving DecidableEq, Repr

/-- Embedding of Python `str()` applied to a point id: integers render in
decimal (`Nat.repr`), strings are the identity, and a `UUID` renders as its
canonical string (kept abstract as the carried string). -/
def pidToString : PointId → String
  | .pint n => Nat.repr n
  | .pstr s => s
  | .puuid s => s

/-- Embedding of Python `str.lower()` (ASCII case folding), character by
character. -/
def pyLower (s : String) : String := String.mk (s.data.map Char.toLower)

/-- `charsContain needle hay = true` iff `needle` occurs as a contiguous
sublist of `hay`. -/
def charsContain (needle : List Char) : List Char → Bool
  | [] => needle.isEmpty
  | c :: t => needle.isPrefixOf (c :: t) || charsContain needle t

/-- Embedding of Python `sub in hay` on strings: substring containment. -/
def containsSub (hay sub : String) : Bool :=
  charsContain sub.toList hay.toList

/-- The missing-collection signature used by both handlers:
`"doesn't exist" in str(e).lower() or "not found" in str(e).lower()`. -/
def isMissingCollectionError (msg : String) : Bool :=
  containsSub (pyLower msg) "doesn\x27t exist" || containsSub (pyLower msg) "not found"

/-- Validated `VectorPoint` pydantic model: id, a 384-dimension vector,
optional payload. -/
structure VectorPoint : Type where
  id : PointId
  vector : List ℚ
  payload : Option Payload
deriving DecidableEq, Repr

/-- Validated `UpsertRequest` pydantic model. -/
structure UpsertRequest : Type where
  points : List VectorPoint
deriving DecidableEq, Repr

/-- Validated `QueryRequest` pydantic model (defaults already applied). -/
structure QueryRequest : Type where
  vector : List ℚ
  limit : Int
  score_threshold : Option ℚ
deriving DecidableEq, Repr

/-- `QueryResult` response model: note `id : String`. -/
structure QueryResult : Type where
  id : String
  score : ℚ
  payload : Option Payload
deriving DecidableEq, Repr

/-- A `models.PointStruct` sent to the backend. -/
structure PointStruct : Type where
  id : PointId
  vector : List ℚ
  payload : Payload
deriving DecidableEq, Repr

/-- The point conversion in `upsert_vectors`:
`id=str(point.id) if isinstance(point.id, UUID) else point.id`,
`vector=point.vector`, `payload=point.payload or {}` (Python `or` yields
`{}` both for `None` and for an already-empty dict, which coincides with
`Option.getD []`). -/
def pointStructOfPoint (p : VectorPoint) : PointStruct :=
  ⟨match p.id with
   | .puuid s => .pstr s
   | .pint n => .pint n
   | .pstr s => .pstr s,
   p.vector, p.payload.getD []⟩

/-- A hit returned by the backend search call. -/
structure Hit : Type where
  id : PointId
  score : ℚ
  payload : Option Payload
deriving DecidableEq, Repr

/-- The conversion in `query_vectors`:
`QueryResult(id=str(hit.id), score=hit.score, payload=hit.payload)`. -/
def queryResultOfHit (h : Hit) : QueryResult :=
  ⟨pidToString h.id, h.score, h.payload⟩

/-- A backend call issued by the router, with its arguments. -/
inductive BCall : Type
  | upsertPoints (collection : String) (points : List PointStruct)
  | createCollection (collection : String) (size : Nat)
  | search (collection : String) (vector : List ℚ) (limit : Int)
      (threshold : Option ℚ)
  | getCollections
  | countPoints (collection : String)
deriving DecidableEq, Repr

/-- Is this call a `create_collection` call? -/
def BCall.isCreateCall : BCall → Bool
  | .createCollection _ _ => true
  | _ => false

/-- Is this call an `upsert` call? -/
def BCall.isUpsertCall : BCall → Bool
  | .upsertPoints _ _ => true
  | _ => false

/-- Is this call a `search` call? -/
def BCall.isSearchCall : BCall → Bool
  | .search _ _ _ _ => true
  | _ => false

/-- Process-lifetime business counters, all labeled by the configured
collection name (the handlers only ever touch the `COLLECTION_NAME` label). -/
structure Counters : Type where
  vectors_upserted : Nat
  vectors_queried : Nat
  query_results : Nat
deriving DecidableEq, Repr

/-- Detail carried by an HTTP error response. -/
structure ErrorInfo : Type where
  error : String
  message : String
  collection : String
  vector_count : Option Nat
  limit : Option Int
deriving DecidableEq, Repr

/-- An HTTPException detail: a plain string, a structured dict, or the
framework-generated 422 validation body. -/
inductive Detail : Type
  | str (s : String)
  | dict (d : ErrorInfo)
  | validated422
deriving DecidableEq, Repr

/-- The 503 detail raised by both vector handlers when no client is live. -/
def notConnectedDetail : Detail :=
  .str "Vector database is not connected. Please try again later."

/-- Successful upsert response body (`elapsed_ms` is wall-clock and omitted). -/
structure UpsertResponse : Type where
  status : String
  collection : String
  upserted_count : Nat
deriving DecidableEq, Repr

/-- Outcome of the upsert handler. -/
inductive UpsertOutcome : Type
  | success (resp : UpsertResponse)
  | httpError (status : Nat) (detail : Detail)
deriving DecidableEq, Repr

/-- Outcome of the query handler. -/
inductive QueryOutcome : Type
  | success (results : List QueryResult)
  | httpError (status : Nat) (detail : Detail)
deriving DecidableEq, Repr

/-- Oracle for the backend calls an upsert handler run may make: the first
`upsert`, the recovery `create_collection`, and the retried `upsert`. -/
structure UpsertBackend : Type where
  first : Except String Unit
  create : Except String Unit
  retry : Except String Unit

/-- Oracle for the backend calls a query handler run may make. -/
structure QueryBackend : Type where
  first : Except String (List Hit)
  create : Except String Unit
  retry : Except String (List Hit)

/-- `ensure_collection_exists`: raises HTTP 503 when the client handle is
`None`; otherwise attempts `create_collection` and swallows any creation
failure (logged only), returning normally either way.  The value is the
list of backend calls made, or the raised (status, detail) pair. -/
def ensure_collection_exists (qdrant_client : Option Unit)
    (createResult : Except String Unit) : Except (Nat × String) (List BCall) :=
  match qdrant_client with
  | none => .error (503, "Vector database is not connected.")
  | some _ =>
    match createResult with
    | .ok _ => .ok [BCall.createCollection COLLECTION_NAME VECTOR_SIZE]
    | .error _ => .ok [BCall.createCollection COLLECTION_NAME VECTOR_SIZE]

/-- The error-classification tail of `upsert_vectors`:
substring "dimension" → 400 with the fixed expected-dimension message,
substring "point id" → 400 invalid-id, otherwise 500 with the backend text. -/
def classifyUpsertError (error_msg : String) (vector_count : Nat) : UpsertOutcome :=
  if containsSub (pyLower error_msg) "dimension" then
    .httpError 400 (.dict ⟨"Vector dimension mismatch",
      "Expected " ++ toString VECTOR_SIZE ++ " dimensions, check your input vectors",
      COLLECTION_NAME, some vector_count, none⟩)
  else if containsSub (pyLower error_msg) "point id" then
    .httpError 400 (.dict ⟨"Invalid vector ID format",
      "Use integers (0-4294967295) or UUID strings",
      COLLECTION_NAME, none, none⟩)
  else
    .httpError 500 (.dict ⟨"Vector upsert failed", error_msg,
      COLLECTION_NAME, some vector_count, none⟩)

/-- The error-classification tail of `query_vectors`. -/
def classifyQueryError (error_msg : String) (limit : Int) : QueryOutcome :=
  if containsSub (pyLower error_msg) "dimension" then
    .httpError 400 (.dict ⟨"Vector dimension mismatch",
      "Expected " ++ toString VECTOR_SIZE ++ " dimensions, check your query vector",
      COLLECTION_NAME, none, none⟩)
  else
    .httpError 500 (.dict ⟨"Vector search failed", error_msg,
      COLLECTION_NAME, none, some limit⟩)

/-- Result of one upsert handler execution. -/
structure UpsertRun : Type where
  outcome : UpsertOutcome
  calls : List BCall
  counters : Counters

/-- Result of one query handler execution. -/
structure QueryRun : Type where
  outcome : QueryOutcome
  calls : List BCall
  counters : Counters

/-- Embedding of the `upsert_vectors` handler body.  A `None` client raises
503 before any backend call; otherwise points are converted, the upsert is
attempted, a missing-collection failure triggers `ensure_collection_exists`
followed by exactly one retry, and any final failure is classified.  The
counter is incremented by the batch size only after the upsert succeeded.
(If `ensure_collection_exists` raised, the HTTPException would be caught by
the handler's own generic `except` clause and classified from its text;
with a live client that branch is unreachable.) -/
def upsert_vectors (qdrant_client : Option Unit) (be : UpsertBackend)
    (request : UpsertRequest) (counters : Counters) : UpsertRun :=
  match qdrant_client with
  | none => ⟨.httpError 503 notConnectedDetail, [], counters⟩
  | some _ =>
    let vector_count := request.points.length
    let points := request.points.map pointStructOfPoint
    let firstCall := BCall.upsertPoints COLLECTION_NAME points
    let succeed : UpsertRun → UpsertRun := id
    match be.first with
    | .ok _ =>
      succeed ⟨.success ⟨"success", COLLECTION_NAME, points.length⟩, [firstCall],
        { counters with vectors_upserted := counters.vectors_upserted + vector_count }⟩
    | .error e =>
      if isMissingCollectionError e then
        match ensure_collection_exists qdrant_client be.create with
        | .ok ecalls =>
          match be.retry with
          | .ok _ =>
            succeed ⟨.success ⟨"success", COLLECTION_NAME, points.length⟩,
              firstCall :: ecalls ++ [firstCall],
              { counters with vectors_upserted := counters.vectors_upserted + vector_count }⟩
          | .error e2 =>
            ⟨classifyUpsertError e2 vector_count,
              firstCall :: ecalls ++ [firstCall], counters⟩
        | .error sd =>
          ⟨classifyUpsertError (toString sd.1 ++ ": " ++ sd.2) vector_count,
            [firstCall], counters⟩
      else
        ⟨classifyUpsertError e vector_count, [firstCall], counters⟩

/-- Embedding of the `query_vectors` handler body: same shape as the upsert
handler; on success the hits are converted to `QueryResult`s, the queries
counter is incremented by 1 and the results counter by the number of
results returned. -/
def query_vectors (qdrant_client : Option Unit) (be : QueryBackend)
    (request : QueryRequest) (counters : Counters) : QueryRun :=
  match qdrant_client with
  | none => ⟨.httpError 503 notConnectedDetail, [], counters⟩
  | some _ =>
    let searchCall := BCall.search COLLECTION_NAME request.vector request.limit
      request.score_threshold
    let finish : List Hit → List BCall → QueryRun := fun hits calls =>
      let results := hits.map queryResultOfHit
      ⟨.success results, calls,
        { counters with
            vectors_queried := counters.vectors_queried + 1,
            query_results := counters.query_results + results.length }⟩
    match be.first with
    | .ok hits => finish hits [searchCall]
    | .error e =>
      if isMissingCollectionError e then
        match ensure_collection_exists qdrant_client be.create with
        | .ok ecalls =>
          match be.retry with
          | .ok hits => finish hits (searchCall :: ecalls ++ [searchCall])
          | .error e2 =>
            ⟨classifyQueryError e2 request.limit,
              searchCall :: ecalls ++ [searchCall], counters⟩
        | .error sd =>
          ⟨classifyQueryError (toString sd.1 ++ ": " ++ sd.2) request.limit,
            [searchCall], counters⟩
      else
        ⟨classifyQueryError e request.limit, [searchCall], counters⟩

/-- Body produced by the `/health` endpoint (fields the claims mention). -/
structure HealthReport : Type where
  http_status : Nat
  status : String
  qdrant_status : String
  collections_count : Option Nat
deriving DecidableEq, Repr

/-- Embedding of `health_check`: with no client the status stays
"disconnected" and the service is degraded; with a client, a successful
`get_collections` yields "connected" plus the collection count, a raising
one yields "error: ..." and degraded.  Degraded responses are served with
HTTP 503, healthy ones with 200. -/
def health_check (qdrant_client : Option Unit)
    (getCollectionsResult : Except String Nat) : HealthReport :=
  let triple : String × Option Nat × Bool :=
    match qdrant_client with
    | some _ =>
      match getCollectionsResult with
      | .ok k => ("connected", some k, true)
      | .error e => ("error: " ++ e, none, false)
    | none => ("disconnected", none, false)
  ⟨if triple.2.2 then 200 else 503,
   if triple.2.2 then "healthy" else "degraded",
   triple.1, triple.2.1⟩

/-- Outcome of the `/collections` endpoint. -/
inductive CollectionsOutcome : Type
  | success (collections : List (String × Nat))
  | httpError (status : Nat) (detail : Detail)
deriving DecidableEq, Repr

/-- Embedding of `list_collections`: 503 with the not-connected detail when
the client handle is `None`; otherwise `get_collections` is called and each
collection is paired with its point count (per-collection `count` calls are
modelled by the total oracle `countOf`); a raising `get_collections`
becomes a 500. -/
def list_collections (qdrant_client : Option Unit)
    (getCollectionsResult : Except String (List String))
    (countOf : String → Nat) : CollectionsOutcome × List BCall :=
  match qdrant_client with
  | none => (.httpError 503 notConnectedDetail, [])
  | some _ =>
    match getCollectionsResult with
    | .ok names =>
      (.success (names.map fun n => (n, countOf n)),
       BCall.getCollections :: names.map fun n => BCall.countPoints n)
    | .error e =>
      (.httpError 500 (.str ("Failed to list collections: " ++ e)),
       [BCall.getCollections])

/-- Startup half of `lifespan`: build the client, test the connection with
`get_collections`, then get-or-create the collection.  Every failure path
is caught: the process is not aborted, the handle is simply left `None`
(degraded mode).  The function is total, returning the resulting value of
the global `qdrant_client`. -/
def lifespan_startup (clientInit : Except String Unit)
    (getCollectionsResult : Except String Nat)
    (getCollectionResult : Except String Unit)
    (createResult : Except String Unit) : Option Unit :=
  match clientInit with
  | .error _ => none
  | .ok c =>
    match getCollectionsResult with
    | .error _ => none
    | .ok _ =>
      match getCollectionResult with
      | .ok _ => some c
      | .error _ =>
        match createResult with
        | .ok _ => some c
        | .error _ => none

/-- Raw (pre-validation) wire form of a vector point. -/
structure RawVectorPoint : Type where
  id : PointId
  vector : List ℚ
  payload : Option Payload
deriving DecidableEq, Repr

/-- Raw (pre-validation) wire form of an upsert request body. -/
structure RawUpsertRequest : Type where
  points : List RawVectorPoint
deriving DecidableEq, Repr

/-- Raw (pre-validation) wire form of a query request body; `none` means
the field was omitted. -/
structure RawQueryRequest : Type where
  vector : List ℚ
  limit : Option Int
  score_threshold : Option ℚ
deriving DecidableEq, Repr

/-- Pydantic constraint on `VectorPoint.vector`:
`min_length=384, max_length=384`. -/
def validVectorPoint (p : RawVectorPoint) : Bool :=
  decide (VECTOR_SIZE ≤ p.vector.length) && decide (p.vector.length ≤ VECTOR_SIZE)

/-- Pydantic constraints on `UpsertRequest`: `points` has
`min_length=1, max_length=1000` and every point is valid. -/
def validUpsertRequest (raw : RawUpsertRequest) : Bool :=
  decide (1 ≤ raw.points.length) && decide (raw.points.length ≤ 1000)
    && raw.points.all validVectorPoint

/-- Pydantic constraints on `QueryRequest`: vector of length exactly 384,
`limit` (when given) in [1,100], `score_threshold` (when given) in [0,1].
Omitted fields take their defaults and are not range-checked. -/
def validQueryRequest (raw : RawQueryRequest) : Bool :=
  decide (VECTOR_SIZE ≤ raw.vector.length) && decide (raw.vector.length ≤ VECTOR_SIZE)
    && (match raw.limit with
        | none => true
        | some l => decide (1 ≤ l) && decide (l ≤ 100))
    && (match raw.score_threshold with
        | none => true
        | some q => decide ((0 : ℚ) ≤ q) && decide (q ≤ (1 : ℚ)))

/-- Pydantic validation of an upsert body: a valid body is passed through
field-for-field (no truncation or padding); an invalid one is rejected. -/
def validateUpsert (raw : RawUpsertRequest) : Option UpsertRequest :=
  if validUpsertRequest raw then
    some ⟨raw.points.map fun p => ⟨p.id, p.vector, p.payload⟩⟩
  else none

/-- Pydantic validation of a query body: a valid body is passed through
with `limit` defaulting to 10 and `score_threshold` defaulting to absent. -/
def validateQuery (raw : RawQueryRequest) : Option QueryRequest :=
  if validQueryRequest raw then
    some ⟨raw.vector, raw.limit.getD 10, raw.score_threshold⟩
  else none

/-- The full `/upsert` endpoint: FastAPI validates the body before the
handler body runs; a validation failure is answered with HTTP 422 and the
handler (including its `qdrant_client` check) is never entered, so no
backend call is made. -/
def upsertEndpoint (qdrant_client : Option Unit) (be : UpsertBackend)
    (raw : RawUpsertRequest) (counters : Counters) : UpsertRun :=
  match validateUpsert raw with
  | none => ⟨.httpError 422 .validated422, [], counters⟩
  | some req => upsert_vectors qdrant_client be req counters

/-- The full `/query` endpoint, analogous to `upsertEndpoint`. -/
def queryEndpoint (qdrant_client : Option Unit) (be : QueryBackend)
    (raw : RawQueryRequest) (counters : Counters) : QueryRun :=
  match validateQuery raw with
  | none => ⟨.httpError 422 .validated422, [], counters⟩
  | some req => query_vectors qdrant_client be req counters

/-- `classifyUpsertError` always yields an HTTP error, never a success. -/
lemma classifyUpsertError_ne_success (m : String) (n : Nat) (resp : UpsertResponse) :
    classifyUpsertError m n ≠ .success resp := by
  unfold classifyUpsertError
  split
  · simp
  · split <;> simp

/-- `classifyQueryError` always yields an HTTP error, never a success. -/
lemma classifyQueryError_ne_success (m : String) (l : Int) (results : List QueryResult) :
    classifyQueryError m l ≠ .success results := by
  unfold classifyQueryError
  split <;> simp

/-- Claim C4: with a `None` connector handle, `/upsert`, `/query` and
`/collections` all answer HTTP 503 with the not-connected detail and make
no backend call; a startup connection failure does not abort startup, it
only leaves the handle `None`. -/
theorem claim_C4 (be : UpsertBackend) (qbe : QueryBackend) (req : UpsertRequest)
    (qreq : QueryRequest) (c : Counters)
    (colRes : Except String (List String)) (countOf : String → Nat) :
    upsert_vectors none be req c = ⟨.httpError 503 notConnectedDetail, [], c⟩
    ∧ query_vectors none qbe qreq c = ⟨.httpError 503 notConnectedDetail, [], c⟩
    ∧ list_collections none colRes countOf = (.httpError 503 notConnectedDetail, [])
    ∧ (∀ (e : String) g gc cr, lifespan_startup (.error e) g gc cr = none)
    ∧ notConnectedDetail
        = .str "Vector database is not connected. Please try again later."
    ∧ containsSub "Vector database is not connected. Please try again later."
        "not connected" = true := by
  refine ⟨rfl, rfl, rfl, fun _ _ _ _ => rfl, rfl, by decide⟩

/-- Claim C5: `/health` answers 503 with status "degraded" exactly when the
connector handle is `None` or the backend `get_collections` check raises;
otherwise it answers 200 with status "healthy", a connected backend status
and the collection count. -/
theorem claim_C5 (qdrant_client : Option Unit) (res : Except String Nat) :
    (((health_check qdrant_client res).http_status = 503
      ∧ (health_check qdrant_client res).status = "degraded")
      ↔ (qdrant_client = none ∨ ∃ e, res = .error e))
    ∧ (∀ k, qdrant_client = some () → res = .ok k →
        health_check qdrant_client res = ⟨200, "healthy", "connected", some k⟩) := by
  rcases qdrant_client with _ | u
  · rcases res with e | k <;> simp [health_check]
  · cases u
    rcases res with e | k <;> simp [health_check]

/-- Claim C9: with a live connector, `ensure_collection_exists` never
raises, whatever `create_collection` does (failures are swallowed); the
handlers' outcomes are therefore independent of the creation outcome, and
the error a client sees on a failed recovery is the retry's failure; only a
`None` handle makes `ensure_collection_exists` raise (HTTP 503). -/
theorem claim_C9 :
    (∀ o, ensure_collection_exists (some ()) o
        = .ok [BCall.createCollection COLLECTION_NAME VECTOR_SIZE])
    ∧ (∀ o, ensure_collection_exists none o
        = .error (503, "Vector database is not connected."))
    ∧ (∀ (be₁ be₂ : UpsertBackend) req c, be₁.first = be₂.first →
        be₁.retry = be₂.retry →
        upsert_vectors (some ()) be₁ req c = upsert_vectors (some ()) be₂ req c)
    ∧ (∀ (qbe₁ qbe₂ : QueryBackend) qreq c, qbe₁.first = qbe₂.first →
        qbe₁.retry = qbe₂.retry →
        query_vectors (some ()) qbe₁ qreq c = query_vectors (some ()) qbe₂ qreq c)
    ∧ (∀ (be : UpsertBackend) req c e e2, be.first = .error e →
        isMissingCollectionError e = true → be.retry = .error e2 →
        (upsert_vectors (some ()) be req c).outcome
          = classifyUpsertError e2 req.points.length) := by
  refine ⟨fun o => ?_, fun o => rfl, ?_, ?_, ?_⟩
  · cases o <;> rfl
  · rintro ⟨f₁, cr₁, rt₁⟩ ⟨f₂, cr₂, rt₂⟩ req c h1 h2
    simp only at h1 h2
    subst h1; subst h2
    cases f₁ <;> cases cr₁ <;> cases cr₂ <;>
      simp [upsert_vectors, ensure_collection_exists]
  · rintro ⟨f₁, cr₁, rt₁⟩ ⟨f₂, cr₂, rt₂⟩ qreq c h1 h2
    simp only at h1 h2
    subst h1; subst h2
    cases f₁ <;> cases cr₁ <;> cases cr₂ <;>
      simp [query_vectors, ensure_collection_exists]
  · rintro ⟨f, cr, rt⟩ req c e e2 h1 hm h2
    simp only at h1 h2
    subst h1; subst h2
    cases cr <;> simp [upsert_vectors, ensure_collection_exists, hm]

/-- Claim C10: a successful query returns exactly the backend hits mapped
through `queryResultOfHit`, whose `id` field is the `str()` image of the
hit id (decimal for integer ids); and a point with an absent payload is
sent to the backend with an empty mapping. -/
theorem claim_C10 (qbe : QueryBackend) (qreq : QueryRequest) (c : Counters)
    (hits : List Hit) (h : qbe.first = .ok hits) :
    (query_vectors (some ()) qbe qreq c).outcome
      = .success (hits.map queryResultOfHit)
    ∧ (∀ n s p, queryResultOfHit ⟨.pint n, s, p⟩ = ⟨Nat.repr n, s, p⟩)
    ∧ (∀ hh : Hit, (queryResultOfHit hh).id = pidToString hh.id)
    ∧ (∀ p : VectorPoint, p.payload = none → (pointStructOfPoint p).payload = [])
    ∧ (∀ p : VectorPoint, (pointStructOfPoint p).payload = p.payload.getD []) := by
  obtain ⟨f, cr, rt⟩ := qbe
  simp only at h
  subst h
  refine ⟨by simp [query_vectors], fun n s p => rfl, fun hh => rfl, ?_, fun p => rfl⟩
  intro p hp
  simp [pointStructOfPoint, hp]

/-- Witness for C10 at a concrete input: a hit with integer id 7 comes back
with the string id "7". -/
theorem claim_C10_witness :
    ((⟨.ok [⟨.pint 7, 1, none⟩], .ok (), .ok []⟩ : QueryBackend).first
        = .ok [⟨.pint 7, 1, none⟩])
    ∧ (query_vectors (some ()) ⟨.ok [⟨.pint 7, 1, none⟩], .ok (), .ok []⟩
        ⟨[0], 10, none⟩ ⟨0, 0, 0⟩).outcome
      = .success (([⟨.pint 7, 1, none⟩] : List Hit).map queryResultOfHit)
    ∧ ([⟨.pint 7, 1, none⟩] : List Hit).map queryResultOfHit = [⟨"7", 1, none⟩] :=
  ⟨rfl,
   (claim_C10 ⟨.ok [⟨.pint 7, 1, none⟩], .ok (), .ok []⟩ ⟨[0], 10, none⟩
     ⟨0, 0, 0⟩ [⟨.pint 7, 1, none⟩] rfl).1,
   by decide⟩

/-- Claim C2: for a validated batch of `n` points (`n` in [1,1000], every
vector of length 384), a successful upsert response has status "success"
and `upserted_count = n`, the number of points built from the request,
whatever the backend reported. -/
theorem claim_C2 (qdrant_client : Option Unit) (be : UpsertBackend)
    (raw : RawUpsertRequest) (req : UpsertRequest) (c : Counters)
    (hv : validateUpsert raw = some req) (resp : UpsertResponse)
    (hs : (upsert_vectors qdrant_client be req c).outcome = .success resp) :
    resp.status = "success" ∧ resp.upserted_count = raw.points.length
    ∧ 1 ≤ raw.points.length ∧ raw.points.length ≤ 1000
    ∧ ∀ p ∈ raw.points, p.vector.length = VECTOR_SIZE := by
  unfold validateUpsert at hv
  by_cases hval : validUpsertRequest raw = true
  swap
  · simp [hval] at hv
  rw [if_pos hval] at hv
  have hreq : req.points.length = raw.points.length := by
    injection hv with hv
    rw [← hv]
    simp
  have hresp : resp = ⟨"success", COLLECTION_NAME, req.points.length⟩ := by
    rcases qdrant_client with _ | u
    · simp [upsert_vectors] at hs
    · cases u
      obtain ⟨f, cr, rt⟩ := be
      cases f with
      | ok v =>
        simp [upsert_vectors] at hs
        simp [← hs]
      | error e =>
        by_cases hm : isMissingCollectionError e = true
        · cases cr <;> cases rt <;>
            simp [upsert_vectors, ensure_collection_exists, hm] at hs <;>
            first
            | (exact absurd hs (classifyUpsertError_ne_success _ _ _))
            | simp [← hs]
        · simp only [Bool.not_eq_true] at hm
          simp [upsert_vectors, hm] at hs
          exact absurd hs (classifyUpsertError_ne_success _ _ _)
  have hbounds : 1 ≤ raw.points.length ∧ raw.points.length ≤ 1000
      ∧ ∀ p ∈ raw.points, p.vector.length = VECTOR_SIZE := by
    unfold validUpsertRequest at hval
    simp only [Bool.and_eq_true, decide_eq_true_eq, List.all_eq_true] at hval
    refine ⟨hval.1.1, hval.1.2, fun p hp => ?_⟩
    have := hval.2 p hp
    unfold validVectorPoint at this
    simp only [Bool.and_eq_true, decide_eq_true_eq] at this
    omega
  subst hresp
  exact ⟨rfl, by simpa using hreq, hbounds⟩

/-- Witness for C2 at a concrete input: one valid 384-dimension point,
first upsert succeeds, `upserted_count = 1`. -/
theorem claim_C2_witness :
    validateUpsert ⟨[⟨.pint 1, List.replicate 384 (0 : ℚ), none⟩]⟩
      = some ⟨[⟨.pint 1, List.replicate 384 (0 : ℚ), none⟩]⟩
    ∧ (upsert_vectors (some ()) ⟨.ok (), .ok (), .ok ()⟩
        ⟨[⟨.pint 1, List.replicate 384 (0 : ℚ), none⟩]⟩ ⟨0, 0, 0⟩).outcome
      = .success ⟨"success", COLLECTION_NAME, 1⟩
    ∧ (⟨"success", COLLECTION_NAME, 1⟩ : UpsertResponse).status = "success"
    ∧ (⟨"success", COLLECTION_NAME, 1⟩ : UpsertResponse).upserted_count
      = ([⟨.pint 1, List.replicate 384 (0 : ℚ), none⟩] : List RawVectorPoint).length := by
  set_option maxRecDepth 8000 in
  refine ⟨by decide, rfl, ?_, ?_⟩
  · exact (claim_C2 (some ()) ⟨.ok (), .ok (), .ok ()⟩
      ⟨[⟨.pint 1, List.replicate 384 (0 : ℚ), none⟩]⟩
      ⟨[⟨.pint 1, List.replicate 384 (0 : ℚ), none⟩]⟩ ⟨0, 0, 0⟩
      (by set_option maxRecDepth 8000 in decide)
      ⟨"success", COLLECTION_NAME, 1⟩ rfl).1
  · exact (claim_C2 (some ()) ⟨.ok (), .ok (), .ok ()⟩
      ⟨[⟨.pint 1, List.replicate 384 (0 : ℚ), none⟩]⟩
      ⟨[⟨.pint 1, List.replicate 384 (0 : ℚ), none⟩]⟩ ⟨0, 0, 0⟩
      (by set_option maxRecDepth 8000 in decide)
      ⟨"success", COLLECTION_NAME, 1⟩ rfl).2.1

/-- Claim C8: each business counter only ever stays or grows; a successful
upsert of an `n`-point batch adds exactly `n` to the vectors-upserted
counter, a successful query adds exactly 1 to the queries counter and the
number of returned results to the results counter, and every failing
execution leaves all three counters unchanged. -/
theorem claim_C8 (qdrant_client : Option Unit) (be : UpsertBackend)
    (qbe : QueryBackend) (req : UpsertRequest) (qreq : QueryRequest)
    (c : Counters) :
    (c.vectors_upserted ≤ (upsert_vectors qdrant_client be req c).counters.vectors_upserted
     ∧ (upsert_vectors qdrant_client be req c).counters.vectors_queried = c.vectors_queried
     ∧ (upsert_vectors qdrant_client be req c).counters.query_results = c.query_results)
    ∧ (∀ resp, (upsert_vectors qdrant_client be req c).outcome = .success resp →
        (upsert_vectors qdrant_client be req c).counters.vectors_upserted
          = c.vectors_upserted + req.points.length)
    ∧ (∀ s d, (upsert_vectors qdrant_client be req c).outcome = .httpError s d →
        (upsert_vectors qdrant_client be req c).counters = c)
    ∧ (c.vectors_queried ≤ (query_vectors qdrant_client qbe qreq c).counters.vectors_queried
     ∧ c.query_results ≤ (query_vectors qdrant_client qbe qreq c).counters.query_results
     ∧ (query_vectors qdrant_client qbe qreq c).counters.vectors_upserted
         = c.vectors_upserted)
    ∧ (∀ results, (query_vectors qdrant_client qbe qreq c).outcome = .success results →
        (query_vectors qdrant_client qbe qreq c).counters.vectors_queried
          = c.vectors_queried + 1
        ∧ (query_vectors qdrant_client qbe qreq c).counters.query_results
          = c.query_results + results.length)
    ∧ (∀ s d, (query_vectors qdrant_client qbe qreq c).outcome = .httpError s d →
        (query_vectors qdrant_client qbe qreq c).counters = c) := by
  obtain ⟨f, cr, rt⟩ := be
  obtain ⟨qf, qcr, qrt⟩ := qbe
  rcases qdrant_client with _ | u
  · simp [upsert_vectors, query_vectors]
  · cases u
    constructor
    · cases f with
      | ok v => simp [upsert_vectors]
      | error e =>
        by_cases hm : isMissingCollectionError e = true
        · cases cr <;> cases rt <;>
            simp [upsert_vectors, ensure_collection_exists, hm]
        · simp only [Bool.not_eq_true] at hm
          simp [upsert_vectors, hm]
    constructor
    · intro resp hsucc
      cases f with
      | ok v => simp [upsert_vectors]
      | error e =>
        by_cases hm : isMissingCollectionError e = true
        · cases cr <;> cases rt <;>
            simp [upsert_vectors, ensure_collection_exists, hm] at hsucc ⊢ <;>
            exact absurd hsucc (classifyUpsertError_ne_success _ _ _)
        · simp only [Bool.not_eq_true] at hm
          simp [upsert_vectors, hm] at hsucc
          exact absurd hsucc (classifyUpsertError_ne_success _ _ _)
    constructor
    · intro s d herr
      cases f with
      | ok v => simp [upsert_vectors] at herr
      | error e =>
        by_cases hm : isMissingCollectionError e = true
        · cases cr <;> cases rt <;>
            simp [upsert_vectors, ensure_collection_exists, hm] at herr ⊢
        · simp only [Bool.not_eq_true] at hm
          simp [upsert_vectors, hm]
    constructor
    · cases qf with
      | ok hits => simp [query_vectors]
      | error e =>
        by_cases hm : isMissingCollectionError e = true
        · cases qcr <;> cases qrt <;>
            simp [query_vectors, ensure_collection_exists, hm]
        · simp only [Bool.not_eq_true] at hm
          simp [query_vectors, hm]
    constructor
    · intro results hsucc
      cases qf with
      | ok hits =>
        simp [query_vectors] at hsucc ⊢
        simp [← hsucc]
      | error e =>
        by_cases hm : isMissingCollectionError e = true
        · cases qcr <;> cases qrt <;>
            simp [query_vectors, ensure_collection_exists, hm] at hsucc ⊢ <;>
            first
            | (exact absurd hsucc (classifyQueryError_ne_success _ _ _))
            | simp [← hsucc]
        · simp only [Bool.not_eq_true] at hm
          simp [query_vectors, hm] at hsucc
          exact absurd hsucc (classifyQueryError_ne_success _ _ _)
    · intro s d herr
      cases qf with
      | ok hits => simp [query_vectors] at herr
      | error e =>
        by_cases hm : isMissingCollectionError e = true
        · cases qcr <;> cases qrt <;>
            simp [query_vectors, ensure_collection_exists, hm] at herr ⊢
        · simp only [Bool.not_eq_true] at hm
          simp [query_vectors, hm]

/-- Claim C1: when the first backend call of an upsert or query fails with
a missing-collection signature, exactly one creation call is made and the
operation is retried exactly once; a failing retry propagates to the
error-classification path (HTTP 500 when unclassified) with no further
creation or retry; a non-matching error triggers no recovery and
propagates immediately to classification. -/
theorem claim_C1 (be : UpsertBackend) (qbe : QueryBackend) (req : UpsertRequest)
    (qreq : QueryRequest) (c : Counters)
    (e : String) (he : isMissingCollectionError e = true)
    (hf : be.first = .error e) (hqf : qbe.first = .error e)
    (e' : String) (he' : isMissingCollectionError e' = false) :
    ((upsert_vectors (some ()) be req c).calls.countP (fun b => b.isCreateCall) = 1
     ∧ (upsert_vectors (some ()) be req c).calls.countP (fun b => b.isUpsertCall) = 2)
    ∧ ((query_vectors (some ()) qbe qreq c).calls.countP (fun b => b.isCreateCall) = 1
     ∧ (query_vectors (some ()) qbe qreq c).calls.countP (fun b => b.isSearchCall) = 2)
    ∧ (∀ e2, be.retry = .error e2 →
        (upsert_vectors (some ()) be req c).outcome
          = classifyUpsertError e2 req.points.length
        ∧ (containsSub (pyLower e2) "dimension" = false →
           containsSub (pyLower e2) "point id" = false →
           (upsert_vectors (some ()) be req c).outcome
             = .httpError 500 (.dict ⟨"Vector upsert failed", e2,
                 COLLECTION_NAME, some req.points.length, none⟩)))
    ∧ (∀ e2, qbe.retry = .error e2 →
        (query_vectors (some ()) qbe qreq c).outcome
          = classifyQueryError e2 qreq.limit
        ∧ (containsSub (pyLower e2) "dimension" = false →
           (query_vectors (some ()) qbe qreq c).outcome
             = .httpError 500 (.dict ⟨"Vector search failed", e2,
                 COLLECTION_NAME, none, some qreq.limit⟩)))
    ∧ (∀ be' : UpsertBackend, be'.first = .error e' →
        (upsert_vectors (some ()) be' req c).calls
          = [BCall.upsertPoints COLLECTION_NAME (req.points.map pointStructOfPoint)]
        ∧ (upsert_vectors (some ()) be' req c).outcome
          = classifyUpsertError e' req.points.length)
    ∧ (∀ qbe' : QueryBackend, qbe'.first = .error e' →
        (query_vectors (some ()) qbe' qreq c).calls
          = [BCall.search COLLECTION_NAME qreq.vector qreq.limit qreq.score_threshold]
        ∧ (query_vectors (some ()) qbe' qreq c).outcome
          = classifyQueryError e' qreq.limit) := by
  obtain ⟨f, cr, rt⟩ := be
  obtain ⟨qf, qcr, qrt⟩ := qbe
  simp only at hf hqf
  subst hf; subst hqf
  refine ⟨?_, ?_, ?_, ?_, ?_, ?_⟩
  · cases cr <;> cases rt <;>
      simp [upsert_vectors, ensure_collection_exists, he, List.countP_cons,
        BCall.isCreateCall, BCall.isUpsertCall]
  · cases qcr <;> cases qrt <;>
      simp [query_vectors, ensure_collection_exists, he, List.countP_cons,
        BCall.isCreateCall, BCall.isSearchCall]
  · intro e2 h2
    simp only at h2
    subst h2
    cases cr <;>
      refine ⟨by simp [upsert_vectors, ensure_collection_exists, he], fun hd hp => ?_⟩ <;>
      simp [upsert_vectors, ensure_collection_exists, he, classifyUpsertError, hd, hp]
  · intro e2 h2
    simp only at h2
    subst h2
    cases qcr <;>
      refine ⟨by simp [query_vectors, ensure_collection_exists, he], fun hd => ?_⟩ <;>
      simp [query_vectors, ensure_collection_exists, he, classifyQueryError, hd]
  · rintro ⟨f', cr', rt'⟩ h'
    simp only at h'
    subst h'
    simp [upsert_vectors, he']
  · rintro ⟨f', cr', rt'⟩ h'
    simp only at h'
    subst h'
    simp [query_vectors, he']

/-- Witness for C1 at concrete inputs: first call fails with
"collection not found", recovery creates once and retries once; retry
failure "boom" is unclassified and surfaces as a 500; "timeout" matches
neither substring and triggers no recovery. -/
theorem claim_C1_witness :
    isMissingCollectionError "collection not found" = true
    ∧ isMissingCollectionError "timeout" = false
    ∧ ((upsert_vectors (some ())
          ⟨.error "collection not found", .ok (), .error "boom"⟩
          ⟨[]⟩ ⟨0, 0, 0⟩).calls.countP (fun b => b.isCreateCall) = 1
       ∧ (upsert_vectors (some ())
          ⟨.error "collection not found", .ok (), .error "boom"⟩
          ⟨[]⟩ ⟨0, 0, 0⟩).calls.countP (fun b => b.isUpsertCall) = 2)
    ∧ (upsert_vectors (some ())
          ⟨.error "collection not found", .ok (), .error "boom"⟩
          ⟨[]⟩ ⟨0, 0, 0⟩).outcome
        = .httpError 500 (.dict ⟨"Vector upsert failed", "boom", COLLECTION_NAME,
            some 0, none⟩) :=
  ⟨by decide, by decide,
   (claim_C1 ⟨.error "collection not found", .ok (), .error "boom"⟩
      ⟨.error "collection not found", .ok (), .ok []⟩ ⟨[]⟩ ⟨[0], 10, none⟩
      ⟨0, 0, 0⟩ "collection not found" (by decide) rfl rfl
      "timeout" (by decide)).1,
   ((claim_C1 ⟨.error "collection not found", .ok (), .error "boom"⟩
      ⟨.error "collection not found", .ok (), .ok []⟩ ⟨[]⟩ ⟨[0], 10, none⟩
      ⟨0, 0, 0⟩ "collection not found" (by decide) rfl rfl
      "timeout" (by decide)).2.2.1 "boom" rfl).2 (by decide) (by decide)⟩

/-- Claim C3: any schema-bound violation (batch size 0 or >1000, a vector
of length ≠ 384, a given limit outside [1,100], a given score_threshold
outside [0,1]) is rejected with HTTP 422 before the handler body runs —
whatever the connector state, with no backend call; valid bodies pass
through field-for-field (no truncation or padding), with `limit`
defaulting to 10 and `score_threshold` to absent when omitted. -/
theorem claim_C3 (qdrant_client : Option Unit) (be : UpsertBackend)
    (qbe : QueryBackend) (c : Counters)
    (rawU : RawUpsertRequest)
    (hU : rawU.points.length = 0 ∨ 1000 < rawU.points.length
          ∨ ∃ p ∈ rawU.points, p.vector.length ≠ VECTOR_SIZE)
    (rawQ : RawQueryRequest)
    (hQ : rawQ.vector.length ≠ VECTOR_SIZE
          ∨ (∃ l, rawQ.limit = some l ∧ (l < 1 ∨ 100 < l))
          ∨ (∃ q, rawQ.score_threshold = some q ∧ (q < 0 ∨ 1 < q))) :
    upsertEndpoint qdrant_client be rawU c = ⟨.httpError 422 .validated422, [], c⟩
    ∧ queryEndpoint qdrant_client qbe rawQ c = ⟨.httpError 422 .validated422, [], c⟩
    ∧ (∀ raw req, validateUpsert raw = some req →
        req.points.map (fun p => p.vector) = raw.points.map (fun p => p.vector)
        ∧ req.points.map (fun p => p.id) = raw.points.map (fun p => p.id)
        ∧ req.points.map (fun p => p.payload) = raw.points.map (fun p => p.payload))
    ∧ (∀ raw req, validateQuery raw = some req →
        req.vector = raw.vector
        ∧ (raw.limit = none → req.limit = 10)
        ∧ (raw.score_threshold = none → req.score_threshold = none)
        ∧ (∀ l, raw.limit = some l → req.limit = l)
        ∧ (∀ q, raw.score_threshold = some q → req.score_threshold = some q)) := by
  have hvalU : validUpsertRequest rawU = false := by
    unfold validUpsertRequest validVectorPoint
    rcases hU with h0 | hbig | ⟨p, hp, hlen⟩
    · simp [h0]
    · simp only [Bool.and_eq_false_iff, decide_eq_false_iff_not]
      left; right; omega
    · simp only [Bool.and_eq_false_iff]
      right
      rw [List.all_eq_false]
      exact ⟨p, hp, by simp only [Bool.and_eq_true, decide_eq_true_eq, not_and]; omega⟩
  have hvalQ : validQueryRequest rawQ = false := by
    unfold validQueryRequest
    rcases hQ with hlen | ⟨l, hl, hlr⟩ | ⟨q, hq, hqr⟩
    · simp only [Bool.and_eq_false_iff, decide_eq_false_iff_not]
      left; left; omega
    · simp only [Bool.and_eq_false_iff]
      left; right
      rw [hl]
      simp only [Bool.and_eq_false_iff, decide_eq_false_iff_not]
      omega
    · simp only [Bool.and_eq_false_iff]
      right
      rw [hq]
      simp only [Bool.and_eq_false_iff, decide_eq_false_iff_not]
      rcases hqr with h | h
      · left; intro h'; exact absurd h (not_lt.mpr h')
      · right; intro h'; exact absurd h (not_lt.mpr h')
  refine ⟨by simp [upsertEndpoint, validateUpsert, hvalU],
    by simp [queryEndpoint, validateQuery, hvalQ], ?_, ?_⟩
  · intro raw req hv
    unfold validateUpsert at hv
    by_cases hval : validUpsertRequest raw = true
    swap
    · simp [hval] at hv
    rw [if_pos hval] at hv
    injection hv with hv
    rw [← hv]
    simp [List.map_map, Function.comp]
  · intro raw req hv
    unfold validateQuery at hv
    by_cases hval : validQueryRequest raw = true
    swap
    · simp [hval] at hv
    rw [if_pos hval] at hv
    injection hv with hv
    rw [← hv]
    refine ⟨rfl, fun h => by simp [h], fun h => h, fun l h => by simp [h], fun q h => h⟩

/-- Witness for C3 at concrete inputs: an empty batch and a 3-dimension
query vector are both rejected with 422 and no backend call. -/
theorem claim_C3_witness :
    (([] : List RawVectorPoint).length = 0
      ∨ 1000 < ([] : List RawVectorPoint).length
      ∨ ∃ p ∈ ([] : List RawVectorPoint), p.vector.length ≠ VECTOR_SIZE)
    ∧ (([0, 0, 0] : List ℚ).length ≠ VECTOR_SIZE
      ∨ (∃ l, (none : Option Int) = some l ∧ (l < 1 ∨ 100 < l))
      ∨ (∃ q, (none : Option ℚ) = some q ∧ (q < 0 ∨ 1 < q)))
    ∧ upsertEndpoint none ⟨.ok (), .ok (), .ok ()⟩ ⟨[]⟩ ⟨0, 0, 0⟩
        = ⟨.httpError 422 .validated422, [], ⟨0, 0, 0⟩⟩
    ∧ queryEndpoint none ⟨.ok [], .ok (), .ok []⟩ ⟨[0, 0, 0], none, none⟩ ⟨0, 0, 0⟩
        = ⟨.httpError 422 .validated422, [], ⟨0, 0, 0⟩⟩ :=
  ⟨Or.inl (by decide), Or.inl (by decide),
   (claim_C3 none ⟨.ok (), .ok (), .ok ()⟩ ⟨.ok [], .ok (), .ok []⟩ ⟨0, 0, 0⟩
     ⟨[]⟩ (Or.inl (by decide)) ⟨[0, 0, 0], none, none⟩ (Or.inl (by decide))).1,
   (claim_C3 none ⟨.ok (), .ok (), .ok ()⟩ ⟨.ok [], .ok (), .ok []⟩ ⟨0, 0, 0⟩
     ⟨[]⟩ (Or.inl (by decide)) ⟨[0, 0, 0], none, none⟩ (Or.inl (by decide))).2.1⟩

/-- Counterexample to claim C7 as stated: two upsert runs whose backend
errors report different actual dimensions ("got 10" vs "got 7") produce
the very same 400 detail, whose fields are the fixed expected-dimension
message, the collection and the batch size — so the detail does not report
the actual dimension of the offending vector (it does not even mention
"10" anywhere). -/
theorem claim_C7_counterexample :
    (upsert_vectors (some ())
        ⟨.error "Vector dimension error: expected dim: 384, got 10", .ok (), .ok ()⟩
        ⟨[⟨.pint 1, [0, 0, 0, 0, 0, 0, 0, 0, 0, 0], none⟩]⟩ ⟨0, 0, 0⟩).outcome
      = .httpError 400 (.dict ⟨"Vector dimension mismatch",
          "Expected 384 dimensions, check your input vectors", "ai_memory",
          some 1, none⟩)
    ∧ (upsert_vectors (some ())
        ⟨.error "Vector dimension error: expected dim: 384, got 10", .ok (), .ok ()⟩
        ⟨[⟨.pint 1, [0, 0, 0, 0, 0, 0, 0, 0, 0, 0], none⟩]⟩ ⟨0, 0, 0⟩).outcome
      = (upsert_vectors (some ())
        ⟨.error "Vector dimension error: expected dim: 384, got 7", .ok (), .ok ()⟩
        ⟨[⟨.pint 1, [0, 0, 0, 0, 0, 0, 0, 0, 0, 0], none⟩]⟩ ⟨0, 0, 0⟩).outcome
    ∧ containsSub "Expected 384 dimensions, check your input vectors" "10" = false
    ∧ (query_vectors (some ())
        ⟨.error "Vector dimension error: expected dim: 384, got 10", .ok (), .ok []⟩
        ⟨[0, 0, 0, 0, 0, 0, 0, 0, 0, 0], 10, none⟩ ⟨0, 0, 0⟩).outcome
      = .httpError 400 (.dict ⟨"Vector dimension mismatch",
          "Expected 384 dimensions, check your query vector", "ai_memory",
          none, none⟩) := by
  decide

/-- Claim C7, amended: whenever a backend call for upsert or query fails
(directly, or on the retry after recovery) with an error whose message
contains "dimension", the service responds HTTP 400 with a detail
reporting the expected dimension (384) in a fixed guidance message; the
actual dimension of the offending vector is not included in the detail. -/
theorem claim_C7_amended (e : String)
    (hd : containsSub (pyLower e) "dimension" = true)
    (hm : isMissingCollectionError e = false)
    (req : UpsertRequest) (qreq : QueryRequest) (c : Counters) :
    (∀ be : UpsertBackend, be.first = .error e →
      (upsert_vectors (some ()) be req c).outcome
        = .httpError 400 (.dict ⟨"Vector dimension mismatch",
            "Expected " ++ toString VECTOR_SIZE ++ " dimensions, check your input vectors",
            COLLECTION_NAME, some req.points.length, none⟩))
    ∧ (∀ (be : UpsertBackend) m, be.first = .error m →
        isMissingCollectionError m = true → be.retry = .error e →
      (upsert_vectors (some ()) be req c).outcome
        = .httpError 400 (.dict ⟨"Vector dimension mismatch",
            "Expected " ++ toString VECTOR_SIZE ++ " dimensions, check your input vectors",
            COLLECTION_NAME, some req.points.length, none⟩))
    ∧ (∀ qbe : QueryBackend, qbe.first = .error e →
      (query_vectors (some ()) qbe qreq c).outcome
        = .httpError 400 (.dict ⟨"Vector dimension mismatch",
            "Expected " ++ toString VECTOR_SIZE ++ " dimensions, check your query vector",
            COLLECTION_NAME, none, none⟩))
    ∧ (∀ (qbe : QueryBackend) m, qbe.first = .error m →
        isMissingCollectionError m = true → qbe.retry = .error e →
      (query_vectors (some ()) qbe qreq c).outcome
        = .httpError 400 (.dict ⟨"Vector dimension mismatch",
            "Expected " ++ toString VECTOR_SIZE ++ " dimensions, check your query vector",
            COLLECTION_NAME, none, none⟩)) := by
  refine ⟨?_, ?_, ?_, ?_⟩
  · rintro ⟨f, cr, rt⟩ h
    simp only at h
    subst h
    simp [upsert_vectors, hm, classifyUpsertError, hd]
  · rintro ⟨f, cr, rt⟩ m h hmiss h2
    simp only at h h2
    subst h; subst h2
    cases cr <;>
      simp [upsert_vectors, ensure_collection_exists, hmiss,
        classifyUpsertError, hd]
  · rintro ⟨f, cr, rt⟩ h
    simp only at h
    subst h
    simp [query_vectors, hm, classifyQueryError, hd]
  · rintro ⟨f, cr, rt⟩ m h hmiss h2
    simp only at h h2
    subst h; subst h2
    cases cr <;>
      simp [query_vectors, ensure_collection_exists, hmiss,
        classifyQueryError, hd]

/-- Witness for the amended C7 at a concrete input: a backend error
mentioning "dimension" yields the fixed 400 detail. -/
theorem claim_C7_amended_witness :
    containsSub (pyLower "Vector dimension error: expected dim: 384, got 12")
      "dimension" = true
    ∧ isMissingCollectionError "Vector dimension error: expected dim: 384, got 12"
      = false
    ∧ (upsert_vectors (some ())
        ⟨.error "Vector dimension error: expected dim: 384, got 12", .ok (), .ok ()⟩
        ⟨[]⟩ ⟨0, 0, 0⟩).outcome
      = .httpError 400 (.dict ⟨"Vector dimension mismatch",
          "Expected " ++ toString VECTOR_SIZE ++ " dimensions, check your input vectors",
          COLLECTION_NAME, some 0, none⟩) :=
  ⟨by decide, by decide,
   (claim_C7_amended "Vector dimension error: expected dim: 384, got 12"
      (by decide) (by decide) ⟨[]⟩ ⟨[0], 10, none⟩ ⟨0, 0, 0⟩).1
     ⟨.error "Vector dimension error: expected dim: 384, got 12", .ok (), .ok ()⟩
     rfl⟩

end AIMemory
